import Mathlib

/-!
# Verification of the Bioacoustics object-detection notebook

Shallow embedding of the logic in `model_development.ipynb`:

* `plot_object_detection_log` — scrapes "validation mAP" scores out of
  CloudWatch log messages and reports the maximum;
* `set_hyperparameters` — marshals the training hyperparameters;
* `visualize_detection` — filters detections by score threshold and draws
  one rectangle + label per surviving detection;
* `show_hb_prediction` — consumes the endpoint's JSON prediction response.

Python `float` values are modelled as exact fractions (`PyFloat`, an
integer numerator over a positive integer denominator, not kept in lowest
terms) so that all arithmetic the notebook performs on them — comparison,
multiplication, truncation to `int`, `max` — is exact integer arithmetic
and fully computable.  Python strings are modelled as `List Char`;
Python sequences as `List`; a raised exception as the `Except.error` of a
constructor naming the exception's raise site.
-/

deriving instance DecidableEq for Except

/-- Model of a Python `float`: an exact fraction.  Every operation the
notebook performs keeps the denominator positive; fractions are not
normalized.  (IEEE rounding of the underlying binary floats is outside the
model; the notebook's logic uses only comparison, multiplication,
truncation and `max`.) -/
structure PyFloat where
  num : ℤ
  den : ℤ
deriving DecidableEq, Repr

/-- Python `a < b` on floats (cross-multiplication; valid for the positive
denominators maintained throughout). -/
def PyFloat.blt (a b : PyFloat) : Bool := decide (a.num * b.den < b.num * a.den)

/-- Python `a == b` on floats. -/
def PyFloat.beq (a b : PyFloat) : Bool := decide (a.num * b.den = b.num * a.den)

/-- Python `f * n` for an integer `n` (used for `x0 * width` etc.). -/
def PyFloat.mulNat (a : PyFloat) (n : ℕ) : PyFloat := ⟨a.num * n, a.den⟩

/-- Python `int(f)`: truncation toward zero. -/
def pyInt (a : PyFloat) : ℤ := Int.tdiv a.num a.den

/-- Python `max` of two floats: keeps the first argument unless the second
is strictly greater (this is how `max()` scans an iterable). -/
def PyFloat.pymax (a b : PyFloat) : PyFloat := if a.blt b then b else a

/-! ## Python string primitives used by the notebook -/

/-- `p` is a prefix of `s` (helper for the `in` substring test). -/
def isPrefixList (p s : List Char) : Bool :=
  match p, s with
  | [], _ => true
  | _ :: _, [] => false
  | a :: p2, b :: s2 => a = b && isPrefixList p2 s2

/-- Python `pat in hay` substring containment. -/
def containsSub (pat : List Char) : List Char → Bool
  | [] => isPrefixList pat []
  | c :: t => isPrefixList pat (c :: t) || containsSub pat t

/-- Index of the first occurrence of `c`, if any. -/
def pyFindAux (c : Char) : List Char → Option ℕ
  | [] => none
  | x :: xs => if x = c then some 0 else (pyFindAux c xs).map (· + 1)

/-- Python `s.find(c)`: index of the first occurrence of `c` anywhere in
`s`, or `-1` when absent. -/
def pyFind (s : List Char) (c : Char) : ℤ :=
  match pyFindAux c s with
  | some i => (i : ℤ)
  | none => -1

/-- Resolve one slice endpoint the way Python does: negative indices count
from the end, and everything is clamped into `[0, n]`. -/
def pyResolve (n : ℕ) (i : ℤ) : ℕ :=
  if i < 0 then ((n : ℤ) + i).toNat else min i.toNat n

/-- Python `s[a : b]`. -/
def pySlice (s : List Char) (a b : ℤ) : List Char :=
  (s.take (pyResolve s.length b)).drop (pyResolve s.length a)

/-- Decimal value of a digit string (most significant first). -/
def digitsVal (ds : List Char) : ℕ :=
  ds.foldl (fun a c => 10 * a + (c.toNat - 48)) 0

/-- Strip leading and trailing whitespace, as Python `float()` does. -/
def stripWs (s : List Char) : List Char :=
  ((s.dropWhile Char.isWhitespace).reverse.dropWhile Char.isWhitespace).reverse

/-- Apply the exponent suffix of a float literal. -/
def pyExpApply (expNeg : Bool) (n d : ℤ) (e : ℕ) : PyFloat :=
  if expNeg then ⟨n, d * (10 : ℤ) ^ e⟩ else ⟨n * (10 : ℤ) ^ e, d⟩

/-- Parse the exponent part (after `e`/`E`) of a float literal. -/
def pyExpPart (n d : ℤ) (r : List Char) : Option PyFloat :=
  let p :=
    match r with
    | '-' :: t => ((true : Bool), t)
    | '+' :: t => (false, t)
    | _ => (false, r)
  let ed := p.2.takeWhile Char.isDigit
  let rest := p.2.dropWhile Char.isDigit
  if ed.isEmpty || !rest.isEmpty then none
  else some (pyExpApply p.1 n d (digitsVal ed))

/-- Python `float(s)`: `none` models the `ValueError` raised on a string
that is not a float literal.  Covers the sign / integer part / fractional
part / exponent forms (the special spellings `inf`, `nan` and digit
underscores are outside the model; the notebook's logs contain none). -/
def pyFloat? (s : List Char) : Option PyFloat :=
  let t := stripWs s
  let p :=
    match t with
    | '-' :: r => ((true : Bool), r)
    | '+' :: r => (false, r)
    | _ => (false, t)
  let neg := p.1
  let t1 := p.2
  let ip := t1.takeWhile Char.isDigit
  let r1 := t1.dropWhile Char.isDigit
  let q :=
    match r1 with
    | '.' :: r => (r.takeWhile Char.isDigit, r.dropWhile Char.isDigit)
    | _ => (([] : List Char), r1)
  let fp := q.1
  let r2 := q.2
  if ip.isEmpty && fp.isEmpty then none
  else
    let n0 : ℤ := (digitsVal ip : ℤ) * (10 : ℤ) ^ fp.length + (digitsVal fp : ℤ)
    let n : ℤ := if neg then -n0 else n0
    let d : ℤ := (10 : ℤ) ^ fp.length
    match r2 with
    | [] => some ⟨n, d⟩
    | 'e' :: r => pyExpPart n d r
    | 'E' :: r => pyExpPart n d r
    | _ => none

/-! ## Metric log scraping (`plot_object_detection_log`) -/

/-- The two `ValueError` raise sites inside `plot_object_detection_log`:
`ParseFailure` is `float(mAP)` on a non-numeric substring, `EmptySeries`
is `max(mAP_accs)` on an empty list. -/
inductive MetricErr where
  | ParseFailure
  | EmptySeries
deriving DecidableEq, Repr

/-- The substring the notebook scans for:
`if "validation mAP <score>=" in msg`. -/
def marker : List Char := "validation mAP <score>=".data

/-- `msg[msg.find("(") + 1 : msg.find(")")]` — the substring strictly
between the first `(` and the first `)` of the whole message. -/
def extract_mAP (msg : List Char) : List Char :=
  pySlice msg (pyFind msg '(' + 1) (pyFind msg ')')

/-- One iteration of the notebook's scan of log events: if the marker is
present, append `float(...)` of the extracted substring to the
accumulator; a non-numeric substring raises (aborting the whole loop). -/
def extractStep (acc : List PyFloat) (msg : List Char) : Except MetricErr (List PyFloat) :=
  if containsSub marker msg then
    match pyFloat? (extract_mAP msg) with
    | some v => .ok (acc ++ [v])
    | none => .error .ParseFailure
  else .ok acc

/-- The `for e in cw_log["events"]` loop accumulating `mAP_accs`. -/
def scanLoop (acc : List PyFloat) : List (List Char) → Except MetricErr (List PyFloat)
  | [] => .ok acc
  | msg :: rest =>
    match extractStep acc msg with
    | .ok acc2 => scanLoop acc2 rest
    | .error e => .error e

/-- The notebook's extraction of `mAP_accs` from the messages of a log
stream, in arrival order. -/
def scanLog (msgs : List (List Char)) : Except MetricErr (List PyFloat) :=
  scanLoop [] msgs

/-- Python `max(l)` on a list of floats; raises on the empty list. -/
def pyMax : List PyFloat → Except MetricErr PyFloat
  | [] => .error .EmptySeries
  | x :: xs => .ok (xs.foldl PyFloat.pymax x)

/-- Result of `plot_object_detection_log`: the extracted series and the
printed maximum. -/
structure MAPPlot where
  mAP_accs : List PyFloat
  maxValue : PyFloat
deriving DecidableEq, Repr

/-- `plot_object_detection_log`, given the messages of the job's log
stream: scan every message for the marker, extract and parse the
parenthesized substring, then print `max(mAP_accs)`. -/
def plot_object_detection_log (msgs : List (List Char)) : Except MetricErr MAPPlot :=
  match scanLog msgs with
  | .error e => .error e
  | .ok accs =>
    match pyMax accs with
    | .error e => .error e
    | .ok m => .ok ⟨accs, m⟩

/-- The epoch indices the notebook plots the series against:
`range(len(mAP_accs))`, i.e. each sample's 0-based rank in arrival
order. -/
def withEpochs (samples : List PyFloat) : List (ℕ × PyFloat) :=
  samples.enum

/-- Summary statistics of a metric series. -/
structure Summary where
  max_value : PyFloat
  argmax_epoch : ℕ
  count : ℕ
deriving DecidableEq, Repr

/-- Modelled from the spec: `summarize(samples)` of §4.3 returns
`{max_value, argmax_epoch, count}` and fails with `EmptySeries` on an
empty series.  The notebook's `plot_object_detection_log` computes and
prints only the maximum (and plots the series against
`range(len(mAP_accs))`); `argmax_epoch` (first epoch attaining the
maximum) and `count` follow the spec's words. -/
def summarize (samples : List PyFloat) : Except MetricErr Summary :=
  match samples with
  | [] => .error .EmptySeries
  | x :: xs =>
    let m := xs.foldl PyFloat.pymax x
    .ok ⟨m, (x :: xs).findIdx (fun v => v.beq m), (x :: xs).length⟩

/-! ## Detection visualization (`visualize_detection`) -/

/-- The Python exception kinds that the visualization / prediction code
can raise, plus `MalformedResponse`, the error the spec asks for (no code
path produces it). -/
inductive PyErr where
  | IndexError
  | KeyError
  | TypeError
  | UnpackError
  | MalformedResponse
deriving DecidableEq, Repr

/-- One row of `dets`: `(id, score, x0, y0, x1, y1)`. -/
structure Det where
  klass : PyFloat
  score : PyFloat
  x0 : PyFloat
  y0 : PyFloat
  x1 : PyFloat
  y1 : PyFloat
deriving DecidableEq, Repr

/-- An RGB color, as the triple of `random.random()` draws made the first
time a class id is seen. -/
def Color : Type := PyFloat × PyFloat × PyFloat

instance : DecidableEq Color := by unfold Color; infer_instance

instance : Repr Color := by unfold Color; infer_instance

/-- The drawing work done for one surviving detection: the rectangle's
pixel corners, its edge color, and the label text placed next to it
(which class id it came from is recorded for specification purposes). -/
structure RenderedDet where
  cls_id : ℤ
  xmin : ℤ
  ymin : ℤ
  xmax : ℤ
  ymax : ℤ
  color : Color
  label : List Char
  score : PyFloat
deriving DecidableEq, Repr

/-- The mutable state of a `visualize_detection` call: the input `dets`
array (mutable in principle, threaded through every step), the pyplot
canvas the call draws on, the call-local `colors` dict (an association
list in insertion order), the position of the `random.random()` stream,
and `num_detections`. -/
structure VState where
  dets : List Det
  canvas : List RenderedDet
  colors : List (ℤ × Color)
  k : ℕ
  nd : ℕ
deriving DecidableEq, Repr

/-- Lookup in the `colors` dict. -/
def lookupColor (m : List (ℤ × Color)) (c : ℤ) : Option Color :=
  match m with
  | [] => none
  | (c2, col) :: rest => if c2 = c then some col else lookupColor rest c

/-- Python `str(n)` for an integer. -/
def intStr (i : ℤ) : List Char :=
  if i < 0 then '-' :: Nat.toDigits 10 i.natAbs else Nat.toDigits 10 i.toNat

/-- Python `classes[i]` with negative-index semantics: a negative `i`
counts from the end; out of range raises `IndexError`. -/
def pyIndex (l : List (List Char)) (i : ℤ) : Except PyErr (List Char) :=
  if 0 ≤ i then
    if h : i.toNat < l.length then .ok (l.get ⟨i.toNat, h⟩) else .error .IndexError
  else
    let j := (l.length : ℤ) + i
    if h : 0 ≤ j ∧ j.toNat < l.length then .ok (l.get ⟨j.toNat, h.2⟩)
    else .error .IndexError

/-- `class_name = str(cls_id); if classes and len(classes) > cls_id:
class_name = classes[cls_id]`. -/
def labelFor (classes : List (List Char)) (cls_id : ℤ) : Except PyErr (List Char) :=
  if classes ≠ [] ∧ cls_id < (classes.length : ℤ) then pyIndex classes cls_id
  else .ok (intStr cls_id)

/-- The drawing tail of one loop iteration, after the color for `cls_id`
has been resolved to `col` (with the updated dict `colors2` and stream
position `k2`): convert the normalized corners to pixels, draw the
rectangle, compute the label (which may raise `IndexError`), place the
text. -/
def detDraw (width height : ℕ) (classes : List (List Char)) (s : VState) (det : Det)
    (cls_id : ℤ) (col : Color) (colors2 : List (ℤ × Color)) (k2 : ℕ) :
    Except PyErr VState :=
  match labelFor classes cls_id with
  | .error e => .error e
  | .ok label =>
    .ok { dets := s.dets
          canvas := s.canvas ++ [⟨cls_id, pyInt (det.x0.mulNat width), pyInt (det.y0.mulNat height),
            pyInt (det.x1.mulNat width), pyInt (det.y1.mulNat height), col, label, det.score⟩]
          colors := colors2
          k := k2
          nd := s.nd + 1 }

/-- One iteration of `for det in dets`: skip when `score < thresh`;
otherwise memoize a fresh color triple for a first-seen class id and
draw. -/
def detStep (width height : ℕ) (classes : List (List Char)) (thresh : PyFloat)
    (rng : ℕ → Color) (s : VState) (det : Det) : Except PyErr VState :=
  if det.score.blt thresh then .ok s
  else
    let cls_id := pyInt det.klass
    match lookupColor s.colors cls_id with
    | some col => detDraw width height classes s det cls_id col s.colors s.k
    | none =>
      detDraw width height classes s det cls_id (rng s.k)
        (s.colors ++ [(cls_id, rng s.k)]) (s.k + 1)

/-- The `for det in dets` loop. -/
def renderLoop (width height : ℕ) (classes : List (List Char)) (thresh : PyFloat)
    (rng : ℕ → Color) (s : VState) : List Det → Except PyErr VState
  | [] => .ok s
  | det :: rest =>
    match detStep width height classes thresh rng s det with
    | .ok s2 => renderLoop width height classes thresh rng s2 rest
    | .error e => .error e

/-- `visualize_detection(img_file, dets, classes, thresh)`.  `width` and
`height` are the image's pixel dimensions; `rng` is the
`random.random()` stream and `k0` its position when the call starts.
The `colors` dict is created inside the call (`colors = dict()`), so the
loop starts from an empty dict regardless of any earlier call.  The final
state carries the (untouched) detections, the drawn rectangles/labels in
draw order, and `num_detections`.  (The notebook's default threshold is
`thresh=0.6`.) -/
def visualize_detection (width height : ℕ) (dets : List Det) (classes : List (List Char))
    (thresh : PyFloat) (rng : ℕ → Color) (k0 : ℕ) : Except PyErr VState :=
  renderLoop width height classes thresh rng ⟨dets, [], [], k0, 0⟩ dets

/-- `score >= thresh`, the survival test (the code skips on
`score < thresh`). -/
def survives (thresh : PyFloat) (d : Det) : Bool := !(d.score.blt thresh)

/-- Specification projection of a drawn entry: score and pixel corners. -/
def coordsOf (e : RenderedDet) : PyFloat × ℤ × ℤ × ℤ × ℤ :=
  (e.score, e.xmin, e.ymin, e.xmax, e.ymax)

/-- The score and pixel corners `visualize_detection` computes for a
surviving detection. -/
def expCoords (width height : ℕ) (d : Det) : PyFloat × ℤ × ℤ × ℤ × ℤ :=
  (d.score, pyInt (d.x0.mulNat width), pyInt (d.y0.mulNat height),
    pyInt (d.x1.mulNat width), pyInt (d.y1.mulNat height))

/-! ## Endpoint response consumption (`show_hb_prediction`) -/

/-- A parsed JSON value (`json.loads` output). -/
inductive Json where
  | null
  | jbool (b : Bool)
  | num (q : PyFloat)
  | str (s : List Char)
  | arr (elems : List Json)
  | obj (fields : List (List Char × Json))

/-- Lookup of a key in a JSON object's fields. -/
def lookupField (fields : List (List Char × Json)) (key : List Char) : Option Json :=
  match fields with
  | [] => none
  | (k2, v) :: rest => if k2 = key then some v else lookupField rest key

/-- Python `detections["prediction"]`: a missing key on a dict raises
`KeyError`; subscripting a non-dict value with a string key raises
`TypeError`. -/
def pyDictGet (j : Json) (key : List Char) : Except PyErr Json :=
  match j with
  | .obj fields =>
    match lookupField fields key with
    | some v => .ok v
    | none => .error .KeyError
  | _ => .error .TypeError

def predictionKey : List Char := "prediction".data

/-- `(klass, score, x0, y0, x1, y1) = det`: a row of any length other
than 6 raises (`ValueError`, modelled as `UnpackError`); a non-sequence
row raises `TypeError`. -/
def unpack6 (j : Json) : Except PyErr (Json × Json × Json × Json × Json × Json) :=
  match j with
  | .arr [a, b, c, d, e, f] => .ok (a, b, c, d, e, f)
  | .arr _ => .error .UnpackError
  | _ => .error .TypeError

/-- Numeric use of a JSON field (`score < thresh`, `int(klass)`,
`x0 * width`, ...): a non-number raises `TypeError` at that use.
Python `bool` is an `int`, so `true`/`false` count as `1`/`0`. -/
def asNum (j : Json) : Except PyErr PyFloat :=
  match j with
  | .num q => .ok q
  | .jbool b => .ok (if b then ⟨1, 1⟩ else ⟨0, 1⟩)
  | _ => .error .TypeError

/-- Consumption of one raw response row inside the visualization loop:
unpack the 6-tuple, test the score against the threshold, then use the
remaining fields numerically; a surviving row yields one detection
record. -/
def rowStep (thresh : PyFloat) (acc : List Det) (row : Json) : Except PyErr (List Det) :=
  match unpack6 row with
  | .error e => .error e
  | .ok (k, sc, a, b, c, d) =>
    match asNum sc with
    | .error e => .error e
    | .ok score =>
      if score.blt thresh then .ok acc
      else
        match asNum k, asNum a, asNum b, asNum c, asNum d with
        | .ok kq, .ok x0, .ok y0, .ok x1, .ok y1 => .ok (acc ++ [⟨kq, score, x0, y0, x1, y1⟩])
        | _, _, _, _, _ => .error .TypeError

/-- The loop over `detections["prediction"]`. -/
def rowsLoop (thresh : PyFloat) (acc : List Det) : List Json → Except PyErr (List Det)
  | [] => .ok acc
  | row :: rest =>
    match rowStep thresh acc row with
    | .ok acc2 => rowsLoop thresh acc2 rest
    | .error e => .error e

/-- The response-consuming core of `show_hb_prediction`: take the
`"prediction"` entry of the decoded JSON response and feed it to the
visualization loop (iterating a non-sequence raises `TypeError`).
Returns the detection records of the surviving rows, in response order.
(The notebook's default threshold is `thresh=0.40`.) -/
def show_hb_prediction (thresh : PyFloat) (response : Json) : Except PyErr (List Det) :=
  match pyDictGet response predictionKey with
  | .error e => .error e
  | .ok (.arr rows) => rowsLoop thresh [] rows
  | .ok _ => .error .TypeError

/-- The documented JSON encoding of a detection record: a 6-element
numeric tuple `[class_id, score, x0, y0, x1, y1]`. -/
def encodeDet (d : Det) : Json :=
  .arr [.num d.klass, .num d.score, .num d.x0, .num d.y0, .num d.x1, .num d.y1]

/-! ## Hyperparameter marshalling (`set_hyperparameters`) -/

/-- The hyperparameter assignment handed to
`od_model.set_hyperparameters`. -/
structure Hyperparameters where
  base_network : List Char
  use_pretrained_model : ℤ
  num_classes : ℤ
  mini_batch_size : ℤ
  epochs : ℤ
  learning_rate : PyFloat
  lr_scheduler_step : List Char
  lr_scheduler_factor : PyFloat
  optimizer : List Char
  momentum : PyFloat
  weight_decay : PyFloat
  overlap_threshold : PyFloat
  nms_threshold : PyFloat
  image_shape : ℤ
  label_width : ℤ
  num_training_samples : ℤ
deriving DecidableEq, Repr

/-- `set_hyperparameters(...)`: prints the values and forwards every
argument unchanged to `od_model.set_hyperparameters`; the record below is
the assignment the estimator receives.  (The Python signature's defaults
are `base_network="resnet-50"`, `use_pretrained_model=1`,
`optimizer="sgd"`, `momentum=0.9`, `weight_decay=0.0005`,
`overlap_threshold=0.5`, `nms_threshold=0.45`, `image_shape=512`,
`label_width=350`; the notebook's call site passes the first seven
arguments and leaves the defaults.) -/
def set_hyperparameters (num_classes num_training_samples mini_batch_size num_epochs : ℤ)
    (learning_rate : PyFloat) (lr_steps : List Char) (lr_scheduler_factor : PyFloat)
    (base_network : List Char) (use_pretrained_model : ℤ) (optimizer : List Char)
    (momentum weight_decay overlap_threshold nms_threshold : PyFloat)
    (image_shape label_width : ℤ) : Hyperparameters :=
  { base_network := base_network
    use_pretrained_model := use_pretrained_model
    num_classes := num_classes
    mini_batch_size := mini_batch_size
    epochs := num_epochs
    learning_rate := learning_rate
    lr_scheduler_step := lr_steps
    lr_scheduler_factor := lr_scheduler_factor
    optimizer := optimizer
    momentum := momentum
    weight_decay := weight_decay
    overlap_threshold := overlap_threshold
    nms_threshold := nms_threshold
    image_shape := image_shape
    label_width := label_width
    num_training_samples := num_training_samples }

/-- A concrete stand-in for the `random.random()` stream, used by the
concrete instances below: the `k`-th draw is the triple `(k, 0, 0)`. -/
def rngStream : ℕ → Color := fun k => (⟨(k : ℤ), 1⟩, ⟨0, 1⟩, ⟨0, 1⟩)

/-! ## Helper lemmas: the visualization loop -/

theorem lookupColor_append_some {m : List (ℤ × Color)} {x : ℤ} {v : Color}
    (h : lookupColor m x = some v) (l : List (ℤ × Color)) :
    lookupColor (m ++ l) x = some v := by
  induction m with
  | nil => simp [lookupColor] at h
  | cons p rest ih =>
    obtain ⟨c2, col⟩ := p
    by_cases hp : c2 = x
    · simp only [lookupColor, hp, if_true] at h
      simp only [List.cons_append, lookupColor, hp, if_true]
      exact h
    · simp only [lookupColor, hp, if_false] at h
      simp only [List.cons_append, lookupColor, hp, if_false]
      exact ih h

theorem lookupColor_append_none {m : List (ℤ × Color)} {x : ℤ}
    (h : lookupColor m x = none) (l : List (ℤ × Color)) :
    lookupColor (m ++ l) x = lookupColor l x := by
  induction m with
  | nil => simp
  | cons p rest ih =>
    obtain ⟨c2, col⟩ := p
    by_cases hp : c2 = x
    · simp only [lookupColor, hp, if_true] at h
      cases h
    · simp only [lookupColor, hp, if_false] at h
      simp only [List.cons_append, lookupColor, hp, if_false]
      exact ih h

/-- Full case analysis of one successful loop iteration of
`visualize_detection`. -/
theorem detStep_cases {w h : ℕ} {classes : List (List Char)} {thresh : PyFloat}
    {rng : ℕ → Color} {s : VState} {det : Det} {s2 : VState}
    (hstep : detStep w h classes thresh rng s det = .ok s2) :
    (det.score.blt thresh = true ∧ s2 = s) ∨
    (det.score.blt thresh = false ∧ ∃ col colors2 k2 label,
      labelFor classes (pyInt det.klass) = .ok label ∧
      s2 = { dets := s.dets,
             canvas := s.canvas ++ [⟨pyInt det.klass, pyInt (det.x0.mulNat w),
               pyInt (det.y0.mulNat h), pyInt (det.x1.mulNat w), pyInt (det.y1.mulNat h),
               col, label, det.score⟩],
             colors := colors2, k := k2, nd := s.nd + 1 } ∧
      ((lookupColor s.colors (pyInt det.klass) = some col ∧ colors2 = s.colors ∧ k2 = s.k) ∨
       (lookupColor s.colors (pyInt det.klass) = none ∧ col = rng s.k ∧
         colors2 = s.colors ++ [(pyInt det.klass, col)] ∧ k2 = s.k + 1))) := by
  unfold detStep at hstep
  cases hblt : det.score.blt thresh with
  | true =>
    rw [hblt] at hstep
    simp only [if_true] at hstep
    exact Or.inl ⟨rfl, by injection hstep with h2; exact h2.symm⟩
  | false =>
    rw [hblt] at hstep
    simp only [Bool.false_eq_true, if_false] at hstep
    refine Or.inr ⟨rfl, ?_⟩
    cases hl : lookupColor s.colors (pyInt det.klass) with
    | some col =>
      rw [hl] at hstep
      unfold detDraw at hstep
      cases hlab : labelFor classes (pyInt det.klass) with
      | error e => rw [hlab] at hstep; cases hstep
      | ok label =>
        rw [hlab] at hstep
        exact ⟨col, s.colors, s.k, label, rfl,
          by injection hstep with h2; exact h2.symm, Or.inl ⟨rfl, rfl, rfl⟩⟩
    | none =>
      rw [hl] at hstep
      unfold detDraw at hstep
      cases hlab : labelFor classes (pyInt det.klass) with
      | error e => rw [hlab] at hstep; cases hstep
      | ok label =>
        rw [hlab] at hstep
        exact ⟨rng s.k, s.colors ++ [(pyInt det.klass, rng s.k)], s.k + 1, label, rfl,
          by injection hstep with h2; exact h2.symm, Or.inr ⟨rfl, rfl, rfl, rfl⟩⟩

/-- A successful step never touches the input detections. -/
theorem detStep_dets {w h : ℕ} {classes : List (List Char)} {thresh : PyFloat}
    {rng : ℕ → Color} {s : VState} {det : Det} {s2 : VState}
    (hstep : detStep w h classes thresh rng s det = .ok s2) : s2.dets = s.dets := by
  rcases detStep_cases hstep with ⟨_, rfl⟩ | ⟨_, col, colors2, k2, label, _, rfl, _⟩ <;> rfl

/-- The loop never touches the input detections. -/
theorem renderLoop_dets {w h : ℕ} {classes : List (List Char)} {thresh : PyFloat}
    {rng : ℕ → Color} :
    ∀ {dets : List Det} {s r : VState},
      renderLoop w h classes thresh rng s dets = .ok r → r.dets = s.dets := by
  intro dets
  induction dets with
  | nil => intro s r hr; injection hr with h2; rw [h2]
  | cons det rest ih =>
    intro s r hr
    unfold renderLoop at hr
    cases hstep : detStep w h classes thresh rng s det with
    | error e => rw [hstep] at hr; cases hr
    | ok s2 => rw [hstep] at hr; rw [ih hr, detStep_dets hstep]

/-- A successful step only appends to the canvas. -/
theorem detStep_canvas_mono {w h : ℕ} {classes : List (List Char)} {thresh : PyFloat}
    {rng : ℕ → Color} {s : VState} {det : Det} {s2 : VState}
    (hstep : detStep w h classes thresh rng s det = .ok s2) :
    ∃ t, s2.canvas = s.canvas ++ t := by
  rcases detStep_cases hstep with ⟨_, rfl⟩ | ⟨_, col, colors2, k2, label, _, rfl, _⟩
  · exact ⟨[], by simp⟩
  · exact ⟨_, rfl⟩

/-- The loop only appends to the canvas. -/
theorem renderLoop_canvas_mono {w h : ℕ} {classes : List (List Char)} {thresh : PyFloat}
    {rng : ℕ → Color} :
    ∀ {dets : List Det} {s r : VState},
      renderLoop w h classes thresh rng s dets = .ok r → ∃ t, r.canvas = s.canvas ++ t := by
  intro dets
  induction dets with
  | nil => intro s r hr; injection hr with h2; exact ⟨[], by simp [h2]⟩
  | cons det rest ih =>
    intro s r hr
    unfold renderLoop at hr
    cases hstep : detStep w h classes thresh rng s det with
    | error e => rw [hstep] at hr; cases hr
    | ok s2 =>
      rw [hstep] at hr
      obtain ⟨t1, ht1⟩ := detStep_canvas_mono hstep
      obtain ⟨t2, ht2⟩ := ih hr
      exact ⟨t1 ++ t2, by rw [ht2, ht1, List.append_assoc]⟩

/-- On success, `num_detections` counts exactly the detections with
`score >= thresh`, and the drawn rectangles are exactly those
detections' boxes, in input order. -/
theorem renderLoop_count_coords {w h : ℕ} {classes : List (List Char)} {thresh : PyFloat}
    {rng : ℕ → Color} :
    ∀ {dets : List Det} {s r : VState},
      renderLoop w h classes thresh rng s dets = .ok r →
      r.nd = s.nd + (dets.filter (survives thresh)).length ∧
      r.canvas.map coordsOf
        = s.canvas.map coordsOf ++ (dets.filter (survives thresh)).map (expCoords w h) := by
  intro dets
  induction dets with
  | nil => intro s r hr; injection hr with h2; simp [h2]
  | cons det rest ih =>
    intro s r hr
    unfold renderLoop at hr
    cases hstep : detStep w h classes thresh rng s det with
    | error e => rw [hstep] at hr; cases hr
    | ok s2 =>
      rw [hstep] at hr
      obtain ⟨hnd, hcv⟩ := ih hr
      rcases detStep_cases hstep with ⟨hblt, rfl⟩ | ⟨hblt, col, colors2, k2, label, _, rfl, _⟩
      · have hsurv : survives thresh det = false := by simp [survives, hblt]
        constructor
        · rw [hnd]; simp [List.filter, hsurv]
        · rw [hcv]; simp [List.filter, hsurv]
      · have hsurv : survives thresh det = true := by simp [survives, hblt]
        constructor
        · rw [hnd]; simp only [List.filter, hsurv, List.length_cons]; omega
        · rw [hcv]
          simp only [List.filter, hsurv, List.map_append, List.map_cons]
          simp [coordsOf, expCoords, List.append_assoc]

/-- Consistency of the canvas with the call-local color dict: every drawn
entry's color is what the dict maps its class id to. -/
def ColorInv (s : VState) : Prop :=
  ∀ e ∈ s.canvas, lookupColor s.colors e.cls_id = some e.color

theorem detStep_colorInv {w h : ℕ} {classes : List (List Char)} {thresh : PyFloat}
    {rng : ℕ → Color} {s : VState} {det : Det} {s2 : VState}
    (hstep : detStep w h classes thresh rng s det = .ok s2) (hinv : ColorInv s) :
    ColorInv s2 := by
  rcases detStep_cases hstep with ⟨_, rfl⟩ | ⟨_, col, colors2, k2, label, _, rfl, hcol⟩
  · exact hinv
  · intro e he
    simp only [List.mem_append, List.mem_singleton] at he
    rcases hcol with ⟨hl, rfl, rfl⟩ | ⟨hl, rfl, rfl, rfl⟩
    · rcases he with he | rfl
      · exact hinv e he
      · exact hl
    · rcases he with he | rfl
      · exact lookupColor_append_some (hinv e he) _
      · rw [lookupColor_append_none hl]
        simp [lookupColor]

theorem renderLoop_colorInv {w h : ℕ} {classes : List (List Char)} {thresh : PyFloat}
    {rng : ℕ → Color} :
    ∀ {dets : List Det} {s r : VState},
      renderLoop w h classes thresh rng s dets = .ok r → ColorInv s → ColorInv r := by
  intro dets
  induction dets with
  | nil => intro s r hr hinv; injection hr with h2; exact h2 ▸ hinv
  | cons det rest ih =>
    intro s r hr hinv
    unfold renderLoop at hr
    cases hstep : detStep w h classes thresh rng s det with
    | error e => rw [hstep] at hr; cases hr
    | ok s2 => rw [hstep] at hr; exact ih hr (detStep_colorInv hstep hinv)

/-- Starting from an empty dict and empty canvas, the first entry drawn
(if any) takes the first fresh draw of the random stream. -/
theorem renderLoop_first_color {w h : ℕ} {classes : List (List Char)} {thresh : PyFloat}
    {rng : ℕ → Color} :
    ∀ {dets : List Det} {s r : VState},
      s.colors = [] → s.canvas = [] →
      renderLoop w h classes thresh rng s dets = .ok r →
      r.canvas = [] ∨ ∃ e t, r.canvas = e :: t ∧ e.color = rng s.k := by
  intro dets
  induction dets with
  | nil => intro s r _ hcv hr; injection hr with h2; exact Or.inl (by rw [← h2]; exact hcv)
  | cons det rest ih =>
    intro s r hcol hcv hr
    unfold renderLoop at hr
    cases hstep : detStep w h classes thresh rng s det with
    | error e => rw [hstep] at hr; cases hr
    | ok s2 =>
      rw [hstep] at hr
      rcases detStep_cases hstep with ⟨_, rfl⟩ | ⟨_, col, colors2, k2, label, _, rfl, hcase⟩
      · exact ih hcol hcv hr
      · rcases hcase with ⟨hl, _, _⟩ | ⟨hl, hcolEq, _, _⟩
        · rw [hcol] at hl; simp [lookupColor] at hl
        · obtain ⟨t2, ht2⟩ := renderLoop_canvas_mono hr
          simp only [hcv, List.nil_append, List.singleton_append] at ht2
          exact Or.inr ⟨_, _, ht2, hcolEq⟩

/-! ## Claim theorems: visualization -/

/-- C5: whenever `visualize_detection` completes, `num_detections` is
exactly the number of detections with `score >= thresh` (inclusive), and
the drawn rectangles are exactly those detections' boxes — score and
pixel corners — in input order. -/
theorem C5_threshold_filter (width height : ℕ) (dets : List Det)
    (classes : List (List Char)) (thresh : PyFloat) (rng : ℕ → Color) (k0 : ℕ) (out : VState)
    (h : visualize_detection width height dets classes thresh rng k0 = .ok out) :
    out.nd = (dets.filter (survives thresh)).length ∧
    out.canvas.map coordsOf = (dets.filter (survives thresh)).map (expCoords width height) := by
  have h2 := renderLoop_count_coords (w := width) (h := height) h
  simpa using h2

/-- C5 witness: threshold 0.6 over scores 0.9, 0.3, 0.7 — exactly the
first and third detections are drawn, in order, and the count is 2. -/
theorem C5_threshold_filter_witness :
    ({ dets := [⟨⟨1, 1⟩, ⟨9, 10⟩, ⟨0, 1⟩, ⟨0, 1⟩, ⟨1, 1⟩, ⟨1, 1⟩⟩,
         ⟨⟨1, 1⟩, ⟨3, 10⟩, ⟨0, 1⟩, ⟨0, 1⟩, ⟨1, 1⟩, ⟨1, 1⟩⟩,
         ⟨⟨2, 1⟩, ⟨7, 10⟩, ⟨0, 1⟩, ⟨0, 1⟩, ⟨1, 1⟩, ⟨1, 1⟩⟩],
       canvas := [⟨1, 0, 0, 10, 10, rngStream 0, ['1'], ⟨9, 10⟩⟩,
         ⟨2, 0, 0, 10, 10, rngStream 1, ['2'], ⟨7, 10⟩⟩],
       colors := [(1, rngStream 0), (2, rngStream 1)], k := 2, nd := 2 } : VState).nd
      = (([⟨⟨1, 1⟩, ⟨9, 10⟩, ⟨0, 1⟩, ⟨0, 1⟩, ⟨1, 1⟩, ⟨1, 1⟩⟩,
         ⟨⟨1, 1⟩, ⟨3, 10⟩, ⟨0, 1⟩, ⟨0, 1⟩, ⟨1, 1⟩, ⟨1, 1⟩⟩,
         ⟨⟨2, 1⟩, ⟨7, 10⟩, ⟨0, 1⟩, ⟨0, 1⟩, ⟨1, 1⟩, ⟨1, 1⟩⟩] : List Det).filter
           (survives ⟨6, 10⟩)).length ∧
    ({ dets := [⟨⟨1, 1⟩, ⟨9, 10⟩, ⟨0, 1⟩, ⟨0, 1⟩, ⟨1, 1⟩, ⟨1, 1⟩⟩,
         ⟨⟨1, 1⟩, ⟨3, 10⟩, ⟨0, 1⟩, ⟨0, 1⟩, ⟨1, 1⟩, ⟨1, 1⟩⟩,
         ⟨⟨2, 1⟩, ⟨7, 10⟩, ⟨0, 1⟩, ⟨0, 1⟩, ⟨1, 1⟩, ⟨1, 1⟩⟩],
       canvas := [⟨1, 0, 0, 10, 10, rngStream 0, ['1'], ⟨9, 10⟩⟩,
         ⟨2, 0, 0, 10, 10, rngStream 1, ['2'], ⟨7, 10⟩⟩],
       colors := [(1, rngStream 0), (2, rngStream 1)], k := 2, nd := 2 } : VState).canvas.map
        coordsOf
      = (([⟨⟨1, 1⟩, ⟨9, 10⟩, ⟨0, 1⟩, ⟨0, 1⟩, ⟨1, 1⟩, ⟨1, 1⟩⟩,
         ⟨⟨1, 1⟩, ⟨3, 10⟩, ⟨0, 1⟩, ⟨0, 1⟩, ⟨1, 1⟩, ⟨1, 1⟩⟩,
         ⟨⟨2, 1⟩, ⟨7, 10⟩, ⟨0, 1⟩, ⟨0, 1⟩, ⟨1, 1⟩, ⟨1, 1⟩⟩] : List Det).filter
           (survives ⟨6, 10⟩)).map (expCoords 10 10) :=
  C5_threshold_filter 10 10 _ [] ⟨6, 10⟩ rngStream 0 _ (by decide)

/-- C6 counterexample: a detection whose class id `-2` is outside the
range of the one-element class list does not fall back to the numeric
label — the call raises `IndexError` (Python resolves `-2` by indexing
from the end of the list, which here is out of bounds). -/
theorem C6_counterexample :
    visualize_detection 100 100 [⟨⟨-2, 1⟩, ⟨9, 10⟩, ⟨0, 1⟩, ⟨0, 1⟩, ⟨1, 1⟩, ⟨1, 1⟩⟩]
      [['a']] ⟨6, 10⟩ rngStream 0 = .error .IndexError := by decide

/-- C6 amended: for a surviving detection whose class id is at least
`len(classes)` (or when the class list is empty), the call does not raise
and labels the detection with the bare numeric class id.  (A negative
class id instead indexes from the end of a nonempty class list, labeling
with the wrong name or raising `IndexError`.) -/
theorem C6_amended (width height : ℕ) (det : Det) (classes : List (List Char))
    (thresh : PyFloat) (rng : ℕ → Color) (k0 : ℕ)
    (hcls : classes = [] ∨ (classes.length : ℤ) ≤ pyInt det.klass)
    (hs : det.score.blt thresh = false) :
    visualize_detection width height [det] classes thresh rng k0 =
      .ok { dets := [det],
            canvas := [⟨pyInt det.klass, pyInt (det.x0.mulNat width),
              pyInt (det.y0.mulNat height), pyInt (det.x1.mulNat width),
              pyInt (det.y1.mulNat height), rng k0, intStr (pyInt det.klass), det.score⟩],
            colors := [(pyInt det.klass, rng k0)], k := k0 + 1, nd := 1 } := by
  have hlab : labelFor classes (pyInt det.klass) = .ok (intStr (pyInt det.klass)) := by
    unfold labelFor
    rcases hcls with rfl | hle
    · simp
    · rw [if_neg]
      rintro ⟨-, hlt⟩
      omega
  unfold visualize_detection renderLoop detStep
  rw [hs]
  simp only [Bool.false_eq_true, if_false, lookupColor]
  unfold detDraw
  rw [hlab]
  rfl

/-- C6 witness: class id 5 against the one-element class list `["a"]` —
no error, label is the text `5`. -/
theorem C6_amended_witness :
    visualize_detection 100 100 [⟨⟨5, 1⟩, ⟨9, 10⟩, ⟨0, 1⟩, ⟨0, 1⟩, ⟨1, 1⟩, ⟨1, 1⟩⟩]
      [['a']] ⟨6, 10⟩ rngStream 0 =
      .ok { dets := [⟨⟨5, 1⟩, ⟨9, 10⟩, ⟨0, 1⟩, ⟨0, 1⟩, ⟨1, 1⟩, ⟨1, 1⟩⟩],
            canvas := [⟨5, 0, 0, 100, 100, rngStream 0, ['5'], ⟨9, 10⟩⟩],
            colors := [(5, rngStream 0)], k := 1, nd := 1 } := by
  have h := C6_amended 100 100 ⟨⟨5, 1⟩, ⟨9, 10⟩, ⟨0, 1⟩, ⟨0, 1⟩, ⟨1, 1⟩, ⟨1, 1⟩⟩
    [['a']] ⟨6, 10⟩ rngStream 0 (Or.inr (by decide)) (by decide)
  rw [h]
  rfl

/-- C8: within one `visualize_detection` call, any two drawn entries with
the same class id have the same color (the color is memoized in the
call-local dict at first sight); and the dict starts empty at every call,
so the first entry any call draws always takes a fresh draw from the
random stream at the call's own starting position — nothing is reused
from an earlier call. -/
theorem C8_per_call_color_memo (width height : ℕ) (dets : List Det)
    (classes : List (List Char)) (thresh : PyFloat) (rng : ℕ → Color) (k0 : ℕ) (out : VState)
    (h : visualize_detection width height dets classes thresh rng k0 = .ok out) :
    (∀ e1 ∈ out.canvas, ∀ e2 ∈ out.canvas, e1.cls_id = e2.cls_id → e1.color = e2.color)
    ∧ (∀ e t, out.canvas = e :: t → e.color = rng k0) := by
  constructor
  · intro e1 he1 e2 he2 hcls
    have hinv : ColorInv out :=
      renderLoop_colorInv h (by intro e he; cases he)
    have h1 := hinv e1 he1
    have h2 := hinv e2 he2
    rw [hcls] at h1
    rw [h1] at h2
    injection h2
  · intro e t hcv
    rcases renderLoop_first_color rfl rfl h with hnil | ⟨e2, t2, hcv2, hcol⟩
    · rw [hcv] at hnil; cases hnil
    · rw [hcv] at hcv2
      injection hcv2 with he _
      rw [← he] at hcol
      exact hcol

/-- C8 witness: two detections of the same class in one call share the
first draw's color, and that color is the draw at the call's starting
stream position. -/
theorem C8_per_call_color_memo_witness :
    ((⟨1, 0, 0, 10, 10, rngStream 0, ['1'], ⟨9, 10⟩⟩ : RenderedDet).color
      = (⟨1, 0, 0, 10, 10, rngStream 0, ['1'], ⟨8, 10⟩⟩ : RenderedDet).color)
    ∧ (⟨1, 0, 0, 10, 10, rngStream 0, ['1'], ⟨9, 10⟩⟩ : RenderedDet).color = rngStream 0 := by
  have h := C8_per_call_color_memo 10 10
    [⟨⟨1, 1⟩, ⟨9, 10⟩, ⟨0, 1⟩, ⟨0, 1⟩, ⟨1, 1⟩, ⟨1, 1⟩⟩,
     ⟨⟨1, 1⟩, ⟨8, 10⟩, ⟨0, 1⟩, ⟨0, 1⟩, ⟨1, 1⟩, ⟨1, 1⟩⟩] [] ⟨6, 10⟩ rngStream 0
    { dets := [⟨⟨1, 1⟩, ⟨9, 10⟩, ⟨0, 1⟩, ⟨0, 1⟩, ⟨1, 1⟩, ⟨1, 1⟩⟩,
        ⟨⟨1, 1⟩, ⟨8, 10⟩, ⟨0, 1⟩, ⟨0, 1⟩, ⟨1, 1⟩, ⟨1, 1⟩⟩],
      canvas := [⟨1, 0, 0, 10, 10, rngStream 0, ['1'], ⟨9, 10⟩⟩,
        ⟨1, 0, 0, 10, 10, rngStream 0, ['1'], ⟨8, 10⟩⟩],
      colors := [(1, rngStream 0)], k := 1, nd := 2 } (by decide)
  exact ⟨h.1 _ (by simp) _ (by simp) rfl, h.2 _ _ rfl⟩

/-- C9: `visualize_detection` never mutates the input detections: on
success the detections in the final state are exactly the input list —
the call's only effect is the drawn canvas (and the call-local color
dict / stream position). -/
theorem C9_no_detection_mutation (width height : ℕ) (dets : List Det)
    (classes : List (List Char)) (thresh : PyFloat) (rng : ℕ → Color) (k0 : ℕ) (out : VState)
    (h : visualize_detection width height dets classes thresh rng k0 = .ok out) :
    out.dets = dets := by
  exact renderLoop_dets h

/-- C9 witness: a concrete call returns its input detections
untouched. -/
theorem C9_no_detection_mutation_witness :
    ({ dets := [⟨⟨1, 1⟩, ⟨9, 10⟩, ⟨0, 1⟩, ⟨0, 1⟩, ⟨1, 1⟩, ⟨1, 1⟩⟩],
       canvas := [⟨1, 0, 0, 10, 10, rngStream 0, ['1'], ⟨9, 10⟩⟩],
       colors := [(1, rngStream 0)], k := 1, nd := 1 } : VState).dets
      = [⟨⟨1, 1⟩, ⟨9, 10⟩, ⟨0, 1⟩, ⟨0, 1⟩, ⟨1, 1⟩, ⟨1, 1⟩⟩] :=
  C9_no_detection_mutation 10 10 _ [] ⟨6, 10⟩ rngStream 0 _ (by decide)

/-! ## Helper lemmas: response consumption -/

theorem rowsLoop_encode (thresh : PyFloat) (ds : List Det) :
    ∀ acc, rowsLoop thresh acc (ds.map encodeDet) = .ok (acc ++ ds.filter (survives thresh)) := by
  induction ds with
  | nil => intro acc; simp [rowsLoop]
  | cons d rest ih =>
    intro acc
    simp only [List.map_cons, rowsLoop, rowStep, encodeDet, unpack6, asNum]
    cases hblt : d.score.blt thresh with
    | true =>
      simp only [hblt, if_true]
      rw [ih acc]
      have hsurv : survives thresh d = false := by simp [survives, hblt]
      simp [List.filter, hsurv]
    | false =>
      simp only [hblt, Bool.false_eq_true, if_false]
      rw [ih (acc ++ [d])]
      have hsurv : survives thresh d = true := by simp [survives, hblt]
      simp [List.filter, hsurv]

/-! ## Claim theorems: response consumption -/

/-- C7 counterexample: on a top-level object with no `prediction` key the
code raises a bare `KeyError` — an unrelated runtime error, not the
`MalformedResponse` the claim requires. -/
theorem C7_counterexample :
    show_hb_prediction ⟨4, 10⟩ (Json.obj []) = .error .KeyError
    ∧ PyErr.KeyError ≠ PyErr.MalformedResponse := by decide

/-- C7 amended: the code performs no shape validation and never produces
a `MalformedResponse`: a top-level array raises `TypeError`, an object
without the `prediction` key raises `KeyError`; and when `prediction`
maps to a sequence of 6-element numeric tuples, the rows whose score is
at least the threshold become detection records in response order, never
re-sorted. -/
theorem C7_amended :
    (∀ (thresh : PyFloat) (rows : List Json),
      show_hb_prediction thresh (.arr rows) = .error .TypeError)
    ∧ (∀ (thresh : PyFloat) (fields : List (List Char × Json)),
      lookupField fields predictionKey = none →
      show_hb_prediction thresh (.obj fields) = .error .KeyError)
    ∧ (∀ (thresh : PyFloat) (ds : List Det),
      show_hb_prediction thresh (.obj [(predictionKey, .arr (ds.map encodeDet))])
        = .ok (ds.filter (survives thresh))) := by
  refine ⟨fun thresh rows => rfl, fun thresh fields hnone => ?_, fun thresh ds => ?_⟩
  · simp [show_hb_prediction, pyDictGet, hnone]
  · have hget : pyDictGet (.obj [(predictionKey, .arr (ds.map encodeDet))]) predictionKey
        = .ok (.arr (ds.map encodeDet)) := by simp [pyDictGet, lookupField]
    simp only [show_hb_prediction, hget]
    simpa using rowsLoop_encode thresh ds []

/-- C7 witness: a response with an unrelated key raises `KeyError`; a
well-shaped two-row response parses to the surviving rows in response
order. -/
theorem C7_amended_witness :
    show_hb_prediction ⟨4, 10⟩ (Json.obj [(['a'], Json.null)]) = .error .KeyError
    ∧ show_hb_prediction ⟨4, 10⟩ (Json.obj [(predictionKey,
        Json.arr (([⟨⟨1, 1⟩, ⟨9, 10⟩, ⟨0, 1⟩, ⟨0, 1⟩, ⟨1, 1⟩, ⟨1, 1⟩⟩,
          ⟨⟨2, 1⟩, ⟨7, 10⟩, ⟨0, 1⟩, ⟨0, 1⟩, ⟨1, 1⟩, ⟨1, 1⟩⟩] : List Det).map encodeDet))])
      = .ok (([⟨⟨1, 1⟩, ⟨9, 10⟩, ⟨0, 1⟩, ⟨0, 1⟩, ⟨1, 1⟩, ⟨1, 1⟩⟩,
          ⟨⟨2, 1⟩, ⟨7, 10⟩, ⟨0, 1⟩, ⟨0, 1⟩, ⟨1, 1⟩, ⟨1, 1⟩⟩] : List Det).filter
          (survives ⟨4, 10⟩)) :=
  ⟨C7_amended.2.1 ⟨4, 10⟩ [(['a'], Json.null)] rfl,
   C7_amended.2.2 ⟨4, 10⟩ _⟩

/-! ## Claim theorems: hyperparameter marshalling -/

/-- C2 counterexample: with the out-of-range `num_classes = 0` (the
notebook's other call-site values elsewhere), `set_hyperparameters` does
not fail — it constructs and forwards the complete assignment, invalid
field included. -/
theorem C2_counterexample :
    set_hyperparameters 0 360 16 100 ⟨1, 1000⟩ "33,67".data ⟨1, 10⟩
      "resnet-50".data 1 "sgd".data ⟨9, 10⟩ ⟨5, 10000⟩ ⟨1, 2⟩ ⟨45, 100⟩ 512 350
    = { base_network := "resnet-50".data, use_pretrained_model := 1, num_classes := 0,
        mini_batch_size := 16, epochs := 100, learning_rate := ⟨1, 1000⟩,
        lr_scheduler_step := "33,67".data, lr_scheduler_factor := ⟨1, 10⟩,
        optimizer := "sgd".data, momentum := ⟨9, 10⟩, weight_decay := ⟨5, 10000⟩,
        overlap_threshold := ⟨1, 2⟩, nms_threshold := ⟨45, 100⟩, image_shape := 512,
        label_width := 350, num_training_samples := 360 } := rfl

/-- C2 amended: `set_hyperparameters` performs no range validation at
all: for every field values, in range or not, it returns the assignment
whose fields equal the inputs — no `InvalidParameter` failure exists in
the code. -/
theorem C2_amended (num_classes num_training_samples mini_batch_size num_epochs : ℤ)
    (learning_rate : PyFloat) (lr_steps : List Char) (lr_scheduler_factor : PyFloat)
    (base_network : List Char) (use_pretrained_model : ℤ) (optimizer : List Char)
    (momentum weight_decay overlap_threshold nms_threshold : PyFloat)
    (image_shape label_width : ℤ) :
    set_hyperparameters num_classes num_training_samples mini_batch_size num_epochs
      learning_rate lr_steps lr_scheduler_factor base_network use_pretrained_model
      optimizer momentum weight_decay overlap_threshold nms_threshold
      image_shape label_width
    = { base_network := base_network, use_pretrained_model := use_pretrained_model,
        num_classes := num_classes, mini_batch_size := mini_batch_size,
        epochs := num_epochs, learning_rate := learning_rate,
        lr_scheduler_step := lr_steps, lr_scheduler_factor := lr_scheduler_factor,
        optimizer := optimizer, momentum := momentum, weight_decay := weight_decay,
        overlap_threshold := overlap_threshold, nms_threshold := nms_threshold,
        image_shape := image_shape, label_width := label_width,
        num_training_samples := num_training_samples } := rfl

/-! ## Helper lemmas: metric log scraping -/

theorem scanLoop_no_match (msgs : List (List Char)) :
    ∀ acc, (∀ m ∈ msgs, containsSub marker m = false) → scanLoop acc msgs = .ok acc := by
  induction msgs with
  | nil => intro acc _; rfl
  | cons m rest ih =>
    intro acc h
    have hm : containsSub marker m = false := h m (by simp)
    have hstep : extractStep acc m = .ok acc := by simp [extractStep, hm]
    simp only [scanLoop, hstep]
    exact ih acc fun m2 hm2 => h m2 (by simp [hm2])

theorem isPrefixList_self_append (p r : List Char) : isPrefixList p (p ++ r) = true := by
  induction p with
  | nil => rfl
  | cons c p2 ih => simp [isPrefixList, ih]

theorem containsSub_nil_pat (hay : List Char) : containsSub [] hay = true := by
  induction hay with
  | nil => rfl
  | cons c t ih => simp [containsSub, isPrefixList]

theorem containsSub_infix (pat l r : List Char) : containsSub pat (l ++ (pat ++ r)) = true := by
  induction l with
  | nil =>
    simp only [List.nil_append]
    cases pat with
    | nil => exact containsSub_nil_pat r
    | cons c p2 =>
      have h : isPrefixList (c :: p2) ((c :: p2) ++ r) = true := isPrefixList_self_append _ r
      simp only [List.cons_append] at h ⊢
      simp [containsSub, h]
  | cons x xs ih => simp [containsSub, ih]

theorem pyFindAux_append_cons (c : Char) (a r : List Char) (h : c ∉ a) :
    pyFindAux c (a ++ c :: r) = some a.length := by
  induction a with
  | nil => simp [pyFindAux]
  | cons x xs ih =>
    have hx : x ≠ c := by rintro rfl; exact h (by simp)
    have hxs : c ∉ xs := fun hmem => h (by simp [hmem])
    simp [pyFindAux, hx, ih hxs]

/-! ## Claim theorems: metric log scraping -/

/-- C1: on the three-message stream of the spec's example, the scraper
extracts exactly the samples 0.42 and 0.55, in arrival order, the plotted
epoch index of each sample is its 0-based rank, and the summary reports
max 0.55 at epoch 1 with count 2. -/
theorem C1_metric_log_example :
    plot_object_detection_log ["validation mAP <score>=(0.42)".data, "unrelated".data,
      "validation mAP <score>=(0.55)".data] = .ok ⟨[⟨42, 100⟩, ⟨55, 100⟩], ⟨55, 100⟩⟩
    ∧ withEpochs [⟨42, 100⟩, ⟨55, 100⟩] = [(0, ⟨42, 100⟩), (1, ⟨55, 100⟩)]
    ∧ summarize [⟨42, 100⟩, ⟨55, 100⟩] = .ok ⟨⟨55, 100⟩, 1, 2⟩ := by decide

/-- C3 counterexample: a message whose marker is present but whose
parenthesized payload is not a number is not skipped — `float()` raises,
the whole scan aborts, and the valid message after it yields nothing. -/
theorem C3_counterexample :
    scanLog ["validation mAP <score>=(abc)".data,
      "validation mAP <score>=(0.5)".data] = .error .ParseFailure := by decide

/-- C3 amended: each message yields at most one sample, but a message
whose marker is present and whose parenthesized payload is not a
well-formed number raises `ValueError` and aborts the scan of all
remaining messages (there is no skip-and-warn path). -/
theorem C3_amended :
    (∀ (acc : List PyFloat) (msg : List Char) (r : List PyFloat),
      extractStep acc msg = .ok r → r = acc ∨ ∃ v, r = acc ++ [v])
    ∧ (∀ (msg : List Char) (rest : List (List Char)) (acc : List PyFloat),
      containsSub marker msg = true → pyFloat? (extract_mAP msg) = none →
      scanLoop acc (msg :: rest) = .error .ParseFailure) := by
  constructor
  · intro acc msg r h
    unfold extractStep at h
    by_cases hc : containsSub marker msg = true
    · simp only [hc, if_true] at h
      cases hp : pyFloat? (extract_mAP msg) with
      | some v => rw [hp] at h; exact Or.inr ⟨v, by injection h with h2; exact h2.symm⟩
      | none => rw [hp] at h; cases h
    · simp only [hc, if_false, Bool.false_eq_true] at h
      exact Or.inl (by injection h with h2; exact h2.symm)
  · intro msg rest acc hc hp
    have hstep : extractStep acc msg = .error .ParseFailure := by
      simp [extractStep, hc, hp]
    simp [scanLoop, hstep]

/-- C3 witness: the two parts of `C3_amended` at concrete inputs — a
non-matching message adds no sample, and a matching message with the
payload `abc` aborts the scan of the remaining stream. -/
theorem C3_amended_witness :
    (([] : List PyFloat) = [] ∨ ∃ v, ([] : List PyFloat) = [] ++ [v])
    ∧ scanLoop [] ["validation mAP <score>=(abc)".data, "ok".data] = .error .ParseFailure :=
  ⟨C3_amended.1 [] "unrelated".data [] (by decide),
   C3_amended.2 "validation mAP <score>=(abc)".data ["ok".data] [] (by decide) (by decide)⟩

/-- C4: on a stream in which no message contains the marker (in
particular the empty stream), zero samples are extracted and
`plot_object_detection_log` fails at `max(mAP_accs)` on the empty list —
the `EmptySeries` failure — rather than returning a default or failing
anywhere else. -/
theorem C4_empty_series (msgs : List (List Char))
    (h : ∀ m ∈ msgs, containsSub marker m = false) :
    plot_object_detection_log msgs = .error .EmptySeries := by
  have hscan : scanLog msgs = .ok [] := scanLoop_no_match msgs [] h
  simp [plot_object_detection_log, hscan, pyMax]

/-- C4 witness: a concrete fully non-matching stream. -/
theorem C4_empty_series_witness :
    plot_object_detection_log ["unrelated".data, "another line".data] = .error .EmptySeries :=
  C4_empty_series ["unrelated".data, "another line".data] (by decide)

/-- C10: the extractor takes the substring strictly between the first
`(` and the first `)` of the whole message: whenever an earlier
parenthesized fragment `(b)` precedes the marker, the extracted substring
is `b`, not the payload following the marker — even though the message
does contain the marker and is therefore processed. -/
theorem C10_first_paren_of_whole_message (a b c d : List Char)
    (ha1 : '(' ∉ a) (ha2 : ')' ∉ a) (hb2 : ')' ∉ b) :
    extract_mAP (a ++ '(' :: b ++ ')' :: (c ++ (marker ++ d))) = b
    ∧ containsSub marker (a ++ '(' :: b ++ ')' :: (c ++ (marker ++ d))) = true := by
  constructor
  · set rest := c ++ (marker ++ d) with hrest
    have hopen : pyFind (a ++ '(' :: b ++ ')' :: rest) '(' = (a.length : ℤ) := by
      unfold pyFind
      rw [show a ++ '(' :: b ++ ')' :: rest = a ++ '(' :: (b ++ ')' :: rest) from by simp,
        pyFindAux_append_cons '(' a (b ++ ')' :: rest) ha1]
    have hnotmem : ')' ∉ a ++ '(' :: b := by
      simp only [List.mem_append, List.mem_cons]
      rintro (h | h | h)
      · exact ha2 h
      · exact absurd h (by decide)
      · exact hb2 h
    have hclose : pyFind (a ++ '(' :: b ++ ')' :: rest) ')' = ((a.length + 1 + b.length : ℕ) : ℤ) := by
      unfold pyFind
      rw [show a ++ '(' :: b ++ ')' :: rest = (a ++ '(' :: b) ++ ')' :: rest from by simp,
        pyFindAux_append_cons ')' (a ++ '(' :: b) rest hnotmem]
      simp [Nat.add_comm, Nat.add_assoc, Nat.add_left_comm]
    unfold extract_mAP
    rw [hopen, hclose]
    unfold pySlice pyResolve
    have hlen : (a ++ '(' :: b ++ ')' :: rest).length
        = a.length + 1 + b.length + 1 + rest.length := by simp; omega
    rw [hlen]
    have h1 : ¬ ((a.length : ℤ) + 1 < 0) := by omega
    have h2 : ¬ (((a.length + 1 + b.length : ℕ) : ℤ) < 0) := by omega
    rw [if_neg h2, if_neg h1]
    have e1 : min ((a.length : ℤ) + 1).toNat (a.length + 1 + b.length + 1 + rest.length)
        = a.length + 1 := by omega
    have e2 : min ((a.length + 1 + b.length : ℕ) : ℤ).toNat
        (a.length + 1 + b.length + 1 + rest.length) = a.length + 1 + b.length := by omega
    rw [e1, e2]
    have htake : (a ++ '(' :: b ++ ')' :: rest).take (a.length + 1 + b.length)
        = a ++ '(' :: b := by
      rw [show a ++ '(' :: b ++ ')' :: rest = (a ++ '(' :: b) ++ ')' :: rest from by simp]
      exact List.take_left' (by simp; omega)
    rw [htake, show a ++ '(' :: b = (a ++ ['(']) ++ b from by simp]
    exact List.drop_left' (by simp [Nat.add_comm])
  · rw [show a ++ '(' :: b ++ ')' :: (c ++ (marker ++ d))
      = (a ++ '(' :: b ++ ')' :: c) ++ (marker ++ d) from by simp]
    exact containsSub_infix marker (a ++ '(' :: b ++ ')' :: c) d

/-- C10 witness: in `epoch(3) validation mAP <score>=(0.42)` the
extracted substring is `3` — the earlier parenthesized fragment — not
`0.42`. -/
theorem C10_witness :
    extract_mAP "epoch(3) validation mAP <score>=(0.42)".data = ['3']
    ∧ containsSub marker "epoch(3) validation mAP <score>=(0.42)".data = true := by
  have h := C10_first_paren_of_whole_message "epoch".data ['3'] [' '] "(0.42)".data
    (by decide) (by decide) (by decide)
  exact ⟨by rw [show "epoch(3) validation mAP <score>=(0.42)".data
      = "epoch".data ++ '(' :: ['3'] ++ ')' :: ([' '] ++ (marker ++ "(0.42)".data))
      from by decide]; exact h.1,
    by rw [show "epoch(3) validation mAP <score>=(0.42)".data
      = "epoch".data ++ '(' :: ['3'] ++ ')' :: ([' '] ++ (marker ++ "(0.42)".data))
      from by decide]; exact h.2⟩
